import Mathlib

/-!
Shallow embedding of the traffic-simulation and analytics core of the
Bigdata-Traffic-Jakarta repository (src/config.py, src/traffic_engine.py,
src/weather_api.py, data_generator.py, analytics.py), together with
theorems settling the specification claims about it.

Modelling conventions:
* Python floats are modelled as exact rationals (ℚ); the one place the code
  takes a square root (pandas sample standard deviation) is modelled in ℝ.
* Python `int(x)` (truncation toward zero) is `pyInt` / `pyIntR`.
* Timestamps are seconds since an epoch; the day of week of a timestamp `t`
  is `(t / 86400 + w0) % 7` for an epoch weekday offset `w0`.
* Randomness (`random.uniform`, `random.random`) is modelled by oracle
  records whose fields give the value of each draw site; claims proved for
  every oracle hold regardless of the random draws.
* A caught exception path returning `None` is `Option.none`; an uncaught
  Python exception is `Except.error`.
-/

set_option maxRecDepth 4000

namespace JakartaTraffic

/-! ### Configuration constants (src/config.py) -/

/-- The fixed set of monitored locations (keys of `LOCATIONS` in config.py). -/
def LOCATIONS : List String :=
  ["Jakarta Pusat", "Jakarta Selatan", "Jakarta Utara", "Jakarta Timur", "Jakarta Barat"]

/-- PEAK_MORNING = start 6, end 9. -/
def PEAK_MORNING : Nat × Nat := (6, 9)

/-- PEAK_EVENING = start 16, end 19. -/
def PEAK_EVENING : Nat × Nat := (16, 19)

/-- VEHICLE_PATTERN: representative vehicle volume per hour of day. -/
def VEHICLE_PATTERN : List (Nat × Nat) :=
  [(0, 50), (1, 40), (2, 35), (3, 30), (4, 40), (5, 80),
   (6, 200), (7, 350), (8, 400), (9, 250), (10, 180), (11, 200),
   (12, 220), (13, 200), (14, 180), (15, 200), (16, 300),
   (17, 420), (18, 380), (19, 250), (20, 180), (21, 150),
   (22, 120), (23, 80)]

/-- `VEHICLE_PATTERN.get(hour, 100)` from the Python code. -/
def vehiclePatternGet (hour : Nat) : Nat :=
  ((VEHICLE_PATTERN.lookup hour).getD 100)

/-- RAIN_IMPACT: rain category → congestion multiplier. -/
def RAIN_IMPACT : List (String × ℚ) :=
  [("none", 1), ("light", 13/10), ("moderate", 8/5), ("heavy", 9/5), ("extreme", 2)]

/-- `RAIN_IMPACT.get(cat, 1.0)` from the Python code. -/
def rainImpactGet (cat : String) : ℚ :=
  ((RAIN_IMPACT.lookup cat).getD 1)

/-- TRAFFIC_THRESHOLDS: ordered condition bands (label, low, high). -/
def TRAFFIC_THRESHOLDS : List (String × Int × Int) :=
  [("Lancar", 0, 100), ("Sedang", 100, 200), ("Padat", 200, 350),
   ("Sangat Padat", 350, 500), ("Macet", 500, 9999)]

/-! ### Shared traffic model (src/traffic_engine.py, data_generator.py) -/

/-- The threshold scan shared by `TrafficEngine.get_traffic_condition` and
`DataGenerator.get_condition`: return the first band with low ≤ v < high,
falling back to "Macet" when no band matches. -/
def condLookup : List (String × Int × Int) → Int → String
  | [], _ => "Macet"
  | (c, lo, hi) :: rest, v => if lo ≤ v ∧ v < hi then c else condLookup rest v

/-- `TrafficEngine.get_traffic_condition`. -/
def get_traffic_condition (vehicle_count : Int) : String :=
  condLookup TRAFFIC_THRESHOLDS vehicle_count

/-- `DataGenerator.get_condition` (same scan over the same table). -/
def get_condition (vehicle_count : Int) : String :=
  condLookup TRAFFIC_THRESHOLDS vehicle_count

/-- Python `round(x, 1)` on our rational model of floats. -/
def round1 (x : ℚ) : ℚ := (round (10 * x) : ℤ) / 10

/-- Python `round(x, 2)`. -/
def round2 (x : ℚ) : ℚ := (round (100 * x) : ℤ) / 100

/-- Python `int(x)`: truncation toward zero, on ℚ. -/
def pyInt (x : ℚ) : Int := if 0 ≤ x then ⌊x⌋ else ⌈x⌉

/-- `TrafficEngine.calculate_speed` = `DataGenerator.calculate_speed`.
`u` is the value drawn by `random.uniform(-3, 3)`. -/
def calculate_speed (vehicle_count : Int) (rain_factor : ℚ) (u : ℚ) : ℚ :=
  let max_speed : ℚ := 60
  let min_speed : ℚ := 5
  let speed := max_speed - (vehicle_count : ℚ) / 10
  let speed := speed / rain_factor
  let speed := speed + u
  let speed := max min_speed (min max_speed speed)
  round1 speed

/-- `TrafficEngine.is_peak_hour`: half-open bands from PEAK_MORNING / PEAK_EVENING. -/
def is_peak_hour (hour : Nat) : Bool :=
  (decide (PEAK_MORNING.1 ≤ hour ∧ hour < PEAK_MORNING.2)) ||
  (decide (PEAK_EVENING.1 ≤ hour ∧ hour < PEAK_EVENING.2))

/-- The generator inline peak check (data_generator.py line 221):
`6 <= hour <= 8 or 16 <= hour <= 18`. -/
def genIsPeak (hour : Nat) : Bool :=
  decide ((6 ≤ hour ∧ hour ≤ 8) ∨ (16 ≤ hour ∧ hour ≤ 18))

/-- `TrafficAnalytics._interpret_correlation`: qualitative bands for the
Pearson coefficient. The coefficient lives in ℝ (it involves square
roots), so the comparisons use the classical order on ℝ. -/
noncomputable def interpret_correlation (corr : ℝ) : String :=
  if corr ≥ 0.7 then "Korelasi Kuat Positif: Hujan sangat mempengaruhi kemacetan"
  else if corr ≥ 0.4 then "Korelasi Sedang Positif: Hujan cukup mempengaruhi kemacetan"
  else if corr ≥ 0.2 then "Korelasi Lemah Positif: Hujan sedikit mempengaruhi kemacetan"
  else "Korelasi Sangat Lemah: Hujan tidak terlalu mempengaruhi"

/-! ### Record types (rows of the traffic_data and weather_data tables) -/

/-- One traffic reading, as built by the generator and the engine and as
read back by the analytics module. Timestamps are seconds since an epoch. -/
structure TrafficRow where
  timestamp : Nat
  location : String
  vehicle_count : Int
  condition : String
  speed_kmh : ℚ
  hour : Nat
  is_peak : Nat
  rain_factor : ℚ
  data_source : String
deriving Repr, DecidableEq

/-- One weather reading as emitted by the generator. -/
structure WeatherRow where
  timestamp : Nat
  location : String
  temperature : ℚ
  precipitation : ℚ
  windspeed : ℚ
  weather_code : Nat
  weather_desc : String
  rain_category : String
deriving Repr, DecidableEq

/-! ### Synthetic time-series generator (data_generator.py) -/

/-- Output of `DataGenerator.simulate_historical_weather`. -/
structure WeatherSim where
  precipitation : ℚ
  rain_category : String
  temperature : ℚ
deriving Repr, DecidableEq

/-- `DataGenerator.simulate_historical_weather`. `rand k` is the value of
the k-th `random.random()` call in the body and `uni a b` the value of
`random.uniform(a, b)`; both are oracle parameters, so every theorem
quantifying over them holds for arbitrary random draws. -/
def simulate_historical_weather (hour : Nat) (day_of_week : Nat)
    (rand : Nat → ℚ) (uni : ℚ → ℚ → ℚ) : WeatherSim :=
  let rain_probability : ℚ :=
    if 6 ≤ hour ∧ hour ≤ 10 then 45/100
    else if 15 ≤ hour ∧ hour ≤ 18 then 40/100
    else if hour ≤ 5 then 10/100
    else 15/100
  let rain_probability := rain_probability * (12/10)
  let temperature : ℚ :=
    if 5 ≤ hour ∧ hour ≤ 10 then round1 (uni 25 29)
    else if 10 ≤ hour ∧ hour ≤ 15 then round1 (uni 29 33)
    else if 15 ≤ hour ∧ hour ≤ 20 then round1 (uni 27 31)
    else round1 (uni 24 28)
  if rand 0 < rain_probability then
    let intensity := rand 1
    if intensity < 1/2 then
      { precipitation := round2 (uni (1/2) (5/2)), rain_category := "light",
        temperature := temperature }
    else if intensity < 4/5 then
      { precipitation := round2 (uni (5/2) 7), rain_category := "moderate",
        temperature := temperature }
    else if intensity < 95/100 then
      { precipitation := round2 (uni 7 15), rain_category := "heavy",
        temperature := temperature }
    else
      { precipitation := round2 (uni 15 30), rain_category := "extreme",
        temperature := temperature }
  else
    { precipitation := 0, rain_category := "none", temperature := temperature }

/-- Oracle for all random draws of a generator run. `uniform t loc a b` is
the value drawn by `random.uniform(a, b)` at slot time `t` for location
`loc`; `wrand d h k` and `wuniform d h a b` feed the (per day `d`, per
hour `h`, cached) weather simulation. -/
structure Rng where
  uniform : Nat → String → ℚ → ℚ → ℚ
  wrand : Nat → Nat → Nat → ℚ
  wuniform : Nat → Nat → ℚ → ℚ → ℚ

/-- The per-location loop body of `generate_historical_data` (lines
198-236): one traffic record for location `location` at slot time `t`. -/
def genTrafficRecord (rng : Rng) (day_of_week : Nat) (t : Nat)
    (weather : WeatherSim) (location : String) : TrafficRow :=
  let hour := t % 86400 / 3600
  let base_vehicles := vehiclePatternGet hour
  let location_var := rng.uniform t location (4/5) (6/5)
  let day_var :=
    if 5 ≤ day_of_week then rng.uniform t location (3/5) (17/20)
    else rng.uniform t location (9/10) (11/10)
  let rain_factor := rainImpactGet weather.rain_category
  let vehicles := pyInt ((base_vehicles : ℚ) * location_var * day_var * rain_factor)
  { timestamp := t, location := location, vehicle_count := vehicles,
    condition := get_condition vehicles,
    speed_kmh := calculate_speed vehicles rain_factor (rng.uniform t location (-3) 3),
    hour := hour,
    is_peak := if genIsPeak hour then 1 else 0,
    rain_factor := rain_factor,
    data_source := "historical_generated" }

/-- The hourly weather-record loop body of `generate_historical_data`
(lines 239-250). -/
def genWeatherRecord (rng : Rng) (t : Nat) (weather : WeatherSim)
    (location : String) : WeatherRow :=
  { timestamp := t, location := location,
    temperature := weather.temperature,
    precipitation := weather.precipitation,
    windspeed := round1 (rng.uniform t location 5 25),
    weather_code := if weather.rain_category ≠ "none" then 61 else 0,
    weather_desc := if weather.rain_category ≠ "none" then "Hujan" else "Cerah",
    rain_category := weather.rain_category }

/-- DATA_INTERVAL_MINUTES from config.py. -/
def DATA_INTERVAL_MINUTES : Nat := 5

/-- HISTORICAL_DAYS from config.py. -/
def HISTORICAL_DAYS : Nat := 30

/-- The generation interval in seconds. -/
def intervalSec : Nat := DATA_INTERVAL_MINUTES * 60

/-- The inner while-loop of `generate_historical_data`: the slot times
visited on the day starting at midnight `dayStart`, i.e. the times
`current_time` with `current_time <= end_of_day and current_time < now`,
stepping by the 5-minute interval. -/
def slotLoop (now dayStart : Nat) (t : Nat) : List Nat :=
  if h : t ≤ dayStart + 86399 ∧ t < now then
    t :: slotLoop now dayStart (t + intervalSec)
  else []
termination_by dayStart + 86400 - t
decreasing_by
  have hi : intervalSec = 300 := rfl
  omega

/-- One iteration of the outer per-day loop of `generate_historical_data`:
all traffic and weather records emitted for the calendar day of
`current_date`. `w0` is the weekday of epoch day 0, so that
`(current_date / 86400 + w0) % 7` is Python `current_date.weekday()`. -/
def processDay (rng : Rng) (w0 : Nat) (locs : List String) (now : Nat)
    (current_date : Nat) : List TrafficRow × List WeatherRow :=
  let day_of_week := (current_date / 86400 + w0) % 7
  let dayStart := 86400 * (current_date / 86400)
  let slots := slotLoop now dayStart dayStart
  let weatherOf := fun (t : Nat) =>
    let hour := t % 86400 / 3600
    simulate_historical_weather hour day_of_week
      (rng.wrand dayStart hour) (rng.wuniform dayStart hour)
  let traffic := slots.flatMap (fun t =>
    locs.map (genTrafficRecord rng day_of_week t (weatherOf t)))
  let weatherRecs := slots.flatMap (fun t =>
    if t % 3600 / 60 = 0 then locs.map (genWeatherRecord rng t (weatherOf t))
    else [])
  (traffic, weatherRecs)

/-- The outer per-day while-loop of `generate_historical_data`, projected
to the traffic batch: walks `current_date` from the start date to `now` in
steps of one day. (The source accumulates both batches in one loop; the
two projections here walk the identical slot structure.) -/
def dayLoopTraffic (rng : Rng) (w0 : Nat) (locs : List String) (now : Nat)
    (current_date : Nat) : List TrafficRow :=
  if h : current_date < now then
    (processDay rng w0 locs now current_date).1 ++
      dayLoopTraffic rng w0 locs now (current_date + 86400)
  else []
termination_by now - current_date
decreasing_by omega

/-- The outer per-day while-loop of `generate_historical_data`, projected
to the weather batch. -/
def dayLoopWeather (rng : Rng) (w0 : Nat) (locs : List String) (now : Nat)
    (current_date : Nat) : List WeatherRow :=
  if h : current_date < now then
    (processDay rng w0 locs now current_date).2 ++
      dayLoopWeather rng w0 locs now (current_date + 86400)
  else []
termination_by now - current_date
decreasing_by omega

/-- `DataGenerator.generate_historical_data`, parameterized by the number
of historical days and the location list: start at `now - days` days and
walk day by day. Returns the emitted (traffic, weather) record batches. -/
def generate_historical_data (rng : Rng) (w0 : Nat) (locs : List String)
    (days : Nat) (now : Nat) : List TrafficRow × List WeatherRow :=
  (dayLoopTraffic rng w0 locs now (now - 86400 * days),
   dayLoopWeather rng w0 locs now (now - 86400 * days))

/-! ### Analytics engine (analytics.py) -/

/-- Result of an analytics call that returns either a result payload or a
Python error dict (a normal return, not an exception). -/
inductive PyResult (α : Type) where
  | errDict (msg : String)
  | ok (val : α)
deriving Repr, DecidableEq

/-- Mean of a pandas numeric series. -/
def qmean (xs : List ℚ) : ℚ := xs.sum / xs.length

/-- Max of a (nonempty in all uses) integer series; 0 on the empty list. -/
def listMaxI : List Int → Int
  | [] => 0
  | x :: rest => rest.foldl max x

/-- Min of a (nonempty in all uses) integer series; 0 on the empty list. -/
def listMinI : List Int → Int
  | [] => 0
  | x :: rest => rest.foldl min x

/-- Max of a natural-number series; 0 on the empty list. -/
def listMaxN : List Nat → Nat
  | [] => 0
  | x :: rest => rest.foldl max x

/-- `pandas.Series.mode()`: the most frequent values, sorted ascending. -/
def seriesMode (xs : List String) : List String :=
  let uniq := xs.dedup
  let top := listMaxN (uniq.map (fun v => xs.count v))
  (uniq.filter (fun v => xs.count v = top)).insertionSort (· ≤ ·)

/-- Payload of `TrafficAnalytics.get_overall_stats`. -/
structure OverallStats where
  total_records : Nat
  total_locations : Nat
  avg_vehicles : ℚ
  max_vehicles : Int
  min_vehicles : Int
  avg_speed : ℚ
  most_common_condition : String
  peak_records : Nat
  rainy_records : Nat
deriving Repr, DecidableEq

/-- `TrafficAnalytics.get_overall_stats` over the persisted rows. -/
def get_overall_stats (rows : List TrafficRow) : PyResult OverallStats :=
  if rows = [] then .errDict "Tidak ada data"
  else
    .ok {
      total_records := rows.length,
      total_locations := (rows.map (fun r => r.location)).dedup.length,
      avg_vehicles := round1 (qmean (rows.map (fun r => (r.vehicle_count : ℚ)))),
      max_vehicles := listMaxI (rows.map (fun r => r.vehicle_count)),
      min_vehicles := listMinI (rows.map (fun r => r.vehicle_count)),
      avg_speed := round1 (qmean (rows.map (fun r => r.speed_kmh))),
      most_common_condition :=
        match seriesMode (rows.map (fun r => r.condition)) with
        | [] => "N/A"
        | c :: _ => c,
      peak_records := (rows.map (fun r => r.is_peak)).sum,
      rainy_records := (rows.filter (fun r => 1 < r.rain_factor)).length }

/-- One row of the `get_hourly_pattern` result frame. -/
structure HourlyRow where
  hour : Nat
  avg_vehicles : ℚ
  max_vehicles : Int
  avg_speed : ℚ
  count : Nat
deriving Repr, DecidableEq

/-- `TrafficAnalytics.get_hourly_pattern`: group by `hour` (pandas groupby
emits only the observed keys, sorted ascending), mean/max/count per group.
The optional per-location variant filters `rows` before the call. -/
def get_hourly_pattern (rows : List TrafficRow) : List HourlyRow :=
  if rows = [] then []
  else
    (((rows.map (fun r => r.hour)).dedup).insertionSort (· ≤ ·)).map (fun h =>
      let g := rows.filter (fun r => r.hour = h)
      { hour := h,
        avg_vehicles := round1 (qmean (g.map (fun r => (r.vehicle_count : ℚ)))),
        max_vehicles := listMaxI (g.map (fun r => r.vehicle_count)),
        avg_speed := round1 (qmean (g.map (fun r => r.speed_kmh))),
        count := g.length })

/-- The inner `categorize_rain` helper of `get_rain_correlation`. -/
def categorize_rain (factor : ℚ) : String :=
  if factor ≤ 1 then "Tidak Hujan"
  else if factor ≤ 13/10 then "Hujan Ringan"
  else if factor ≤ 8/5 then "Hujan Sedang"
  else if factor ≤ 9/5 then "Hujan Lebat"
  else "Hujan Ekstrem"

/-- One row of the per-rain-category statistics frame. -/
structure RainRow where
  rain_category : String
  avg_vehicles : ℚ
  max_vehicles : Int
  avg_speed : ℚ
  count : Nat
deriving Repr, DecidableEq

/-- Python `round(x, 3)` on the real coefficient. -/
noncomputable def round3R (x : ℝ) : ℝ := (round (1000 * x) : ℤ) / 1000

/-- Pearson correlation of two series, as `pandas.Series.corr` computes
it. A degenerate (zero-variance) input yields NaN in pandas; here the
division by zero yields the junk value 0, which no claim touches. -/
noncomputable def pearson (xs ys : List ℚ) : ℝ :=
  let mx := qmean xs
  let my := qmean ys
  let sxy : ℚ := ((xs.zip ys).map (fun p => (p.1 - mx) * (p.2 - my))).sum
  let sxx : ℚ := (xs.map (fun x => (x - mx) ^ 2)).sum
  let syy : ℚ := (ys.map (fun y => (y - my) ^ 2)).sum
  (sxy : ℝ) / (Real.sqrt (sxx : ℝ) * Real.sqrt (syy : ℝ))

/-- Payload of `TrafficAnalytics.get_rain_correlation`. -/
structure RainCorrelation where
  correlation_coefficient : ℝ
  stats_by_category : List RainRow
  interpretation : String

/-- `TrafficAnalytics.get_rain_correlation`. -/
noncomputable def get_rain_correlation (rows : List TrafficRow) : PyResult RainCorrelation :=
  if rows = [] then .errDict "Tidak ada data"
  else
    let catOf := fun (r : TrafficRow) => categorize_rain r.rain_factor
    let cats := ((rows.map catOf).dedup).insertionSort (· ≤ ·)
    let rain_stats := cats.map (fun c =>
      let g := rows.filter (fun r => catOf r = c)
      { rain_category := c,
        avg_vehicles := round1 (qmean (g.map (fun r => (r.vehicle_count : ℚ)))),
        max_vehicles := listMaxI (g.map (fun r => r.vehicle_count)),
        avg_speed := round1 (qmean (g.map (fun r => r.speed_kmh))),
        count := g.length : RainRow })
    let correlation := pearson (rows.map (fun r => r.rain_factor))
      (rows.map (fun r => (r.vehicle_count : ℚ)))
    .ok {
      correlation_coefficient := round3R correlation,
      stats_by_category := rain_stats,
      interpretation := interpret_correlation correlation }

/-- One row of the `get_location_comparison` result frame. -/
structure LocationRow where
  location : String
  avg_vehicles : ℚ
  max_vehicles : Int
  min_vehicles : Int
  avg_speed : ℚ
  total_records : Nat
  macet_count : Nat
  macet_pct : ℚ
deriving Repr, DecidableEq

/-- `TrafficAnalytics.get_location_comparison`: group by location, then
sort descending by mean vehicle count. -/
def get_location_comparison (rows : List TrafficRow) : List LocationRow :=
  if rows = [] then []
  else
    let locs := ((rows.map (fun r => r.location)).dedup).insertionSort (· ≤ ·)
    let comparison := locs.map (fun loc =>
      let g := rows.filter (fun r => r.location = loc)
      let macet := (g.filter (fun r => r.condition = "Macet")).length
      { location := loc,
        avg_vehicles := round1 (qmean (g.map (fun r => (r.vehicle_count : ℚ)))),
        max_vehicles := listMaxI (g.map (fun r => r.vehicle_count)),
        min_vehicles := listMinI (g.map (fun r => r.vehicle_count)),
        avg_speed := round1 (qmean (g.map (fun r => r.speed_kmh))),
        total_records := g.length,
        macet_count := macet,
        macet_pct := round1 ((macet : ℚ) / (g.length : ℚ) * 100) : LocationRow })
    comparison.insertionSort (fun a b => b.avg_vehicles ≤ a.avg_vehicles)

/-- `pandas.Series.std()`: the sample standard deviation (ddof = 1);
`none` models the NaN returned for a series of fewer than two values. -/
noncomputable def sampleStd (xs : List ℚ) : Option ℝ :=
  if xs.length ≤ 1 then none
  else
    some (Real.sqrt
      ((((xs.map (fun x => (x - qmean xs) ^ 2)).sum / ((xs.length : ℚ) - 1)) : ℚ) : ℝ))

/-- Python `int(x)` on a real: truncation toward zero. -/
noncomputable def pyIntR (x : ℝ) : Int := if 0 ≤ x then ⌊x⌋ else ⌈x⌉

/-- The inline condition scan of `predict_traffic` (analytics.py lines
244-248): `condition` starts as "Lancar" and the loop breaks at the first
matching band, so a value beyond every band keeps the initial "Lancar". -/
def predictCondScan : List (String × Int × Int) → Int → String
  | [], _ => "Lancar"
  | (c, lo, hi) :: rest, p => if lo ≤ p ∧ p < hi then c else predictCondScan rest p

/-- The condition label `predict_traffic` assigns to its point prediction. -/
def predictCondition (p : Int) : String := predictCondScan TRAFFIC_THRESHOLDS p

/-- Payload of `TrafficAnalytics.predict_traffic`. -/
structure Prediction where
  location : String
  target_hour : Nat
  predicted_vehicles_min : Int
  predicted_vehicles_avg : Int
  predicted_vehicles_max : Int
  predicted_speed : ℚ
  predicted_condition : String
  confidence : String
  samples_used : Nat
deriving Repr, DecidableEq

/-- `TrafficAnalytics.predict_traffic`. An `Except.error` models an
uncaught Python exception: `int(nan)` raises ValueError when the sample
standard deviation of a single-row slice is NaN. -/
noncomputable def predict_traffic (rows : List TrafficRow) (location : String)
    (target_hour : Nat) : Except String (PyResult Prediction) :=
  let df := rows.filter (fun r => r.location = location)
  if df = [] then .ok (.errDict "Tidak ada data historis")
  else
    let df_hour := df.filter (fun r => r.hour = target_hour)
    if df_hour = [] then
      .ok (.errDict ("Tidak ada data untuk jam " ++ toString target_hour ++ ":00"))
    else
      let counts := df_hour.map (fun r => (r.vehicle_count : ℚ))
      let avg_vehicles := qmean counts
      match sampleStd counts with
      | none => .error "ValueError: cannot convert float NaN to integer"
      | some std_vehicles =>
        let avg_speed := qmean (df_hour.map (fun r => r.speed_kmh))
        let predicted_min := max 0 (pyIntR ((avg_vehicles : ℝ) - std_vehicles))
        let predicted_max := pyIntR ((avg_vehicles : ℝ) + std_vehicles)
        let predicted_avg := pyInt avg_vehicles
        .ok (.ok {
          location := location,
          target_hour := target_hour,
          predicted_vehicles_min := predicted_min,
          predicted_vehicles_avg := predicted_avg,
          predicted_vehicles_max := predicted_max,
          predicted_speed := round1 avg_speed,
          predicted_condition := predictCondition predicted_avg,
          confidence := "Sedang (berbasis rata-rata historis)",
          samples_used := df_hour.length })

/-- One half of the weekday/weekend comparison payload. -/
structure DayPartStats where
  label : String
  avg_vehicles : ℚ
  avg_speed : ℚ
  total_records : Nat
deriving Repr, DecidableEq

/-- Payload of `TrafficAnalytics.get_weekday_vs_weekend`. -/
structure WeekSplit where
  weekday : DayPartStats
  weekend : DayPartStats
deriving Repr, DecidableEq

/-- `pandas.Timestamp.dayofweek` (Monday = 0) of an epoch-seconds
timestamp; epoch day 0 (1970-01-01) was a Thursday, hence the offset 3. -/
def dayOfWeek (ts : Nat) : Nat := (ts / 86400 + 3) % 7

/-- `TrafficAnalytics.get_weekday_vs_weekend`: empty partitions report
zero means, not an error. -/
def get_weekday_vs_weekend (rows : List TrafficRow) : PyResult WeekSplit :=
  if rows = [] then .errDict "Tidak ada data"
  else
    let weekday := rows.filter (fun r => dayOfWeek r.timestamp < 5)
    let weekend := rows.filter (fun r => 5 ≤ dayOfWeek r.timestamp)
    .ok {
      weekday := {
        label := "Hari Kerja (Sen-Jum)",
        avg_vehicles :=
          if weekday ≠ [] then round1 (qmean (weekday.map (fun r => (r.vehicle_count : ℚ))))
          else 0,
        avg_speed :=
          if weekday ≠ [] then round1 (qmean (weekday.map (fun r => r.speed_kmh))) else 0,
        total_records := weekday.length },
      weekend := {
        label := "Weekend (Sab-Min)",
        avg_vehicles :=
          if weekend ≠ [] then round1 (qmean (weekend.map (fun r => (r.vehicle_count : ℚ))))
          else 0,
        avg_speed :=
          if weekend ≠ [] then round1 (qmean (weekend.map (fun r => r.speed_kmh))) else 0,
        total_records := weekend.length } }

/-- One row of the `get_top_congestion` result frame. -/
structure TopRow where
  timestamp : Nat
  location : String
  vehicle_count : Int
  condition : String
  speed_kmh : ℚ
  rain_factor : ℚ
deriving Repr, DecidableEq

/-- `TrafficAnalytics.get_top_congestion`: `nlargest(top_n)` is a stable
descending sort on `vehicle_count` followed by `take top_n`. -/
def get_top_congestion (rows : List TrafficRow) (top_n : Nat) : List TopRow :=
  if rows = [] then []
  else
    ((rows.insertionSort (fun a b => b.vehicle_count ≤ a.vehicle_count)).take top_n).map
      (fun r =>
        { timestamp := r.timestamp, location := r.location,
          vehicle_count := r.vehicle_count, condition := r.condition,
          speed_kmh := r.speed_kmh, rain_factor := r.rain_factor })

/-- One row of the `get_current_status` result frame. -/
structure StatusRow where
  location : String
  vehicle_count : Int
  condition : String
  speed_kmh : ℚ
  rain_factor : ℚ
  timestamp : Nat
deriving Repr, DecidableEq

/-- `TrafficAnalytics.get_current_status`: sort by timestamp, then the
last row of each location group, one output row per observed location,
ordered by location name ascending. -/
def get_current_status (rows : List TrafficRow) : List StatusRow :=
  if rows = [] then []
  else
    let sorted := rows.insertionSort (fun a b => a.timestamp ≤ b.timestamp)
    let locs := ((rows.map (fun r => r.location)).dedup).insertionSort (· ≤ ·)
    locs.map (fun loc =>
      let g := sorted.filter (fun r => r.location = loc)
      let lastRow := g.getLastD ⟨0, "", 0, "", 0, 0, 0, 0, ""⟩
      { location := loc, vehicle_count := lastRow.vehicle_count,
        condition := lastRow.condition, speed_kmh := lastRow.speed_kmh,
        rain_factor := lastRow.rain_factor, timestamp := lastRow.timestamp })

/-! ### Live weather fetch (src/weather_api.py) and real-time engine -/

/-- The parts of a 200-response body that `WeatherAPI.get_weather` reads:
the current-weather block and the hourly (time, precipitation) columns,
with each hourly time reduced to its hour of day. -/
structure WeatherPayload where
  weathercode : Nat
  temperature : ℚ
  windspeed : ℚ
  hourly : List (Nat × ℚ)

/-- Outcome of the HTTP fetch for one location: a connection error, a
timeout, or a response with a status code and body. -/
inductive NetOutcome where
  | connError
  | timeout
  | response (status : Nat) (payload : WeatherPayload)

/-- The result dict of a successful `WeatherAPI.get_weather` call. -/
structure WeatherData where
  location : String
  temperature : ℚ
  precipitation : ℚ
  windspeed : ℚ
  weather_code : Nat
  weather_desc : String
  rain_category : String
  timestamp : Nat
deriving Repr, DecidableEq

/-- `WeatherAPI.decode_weather_code`: provider code → (description, rain
category), defaulting to ("Unknown", "none"). -/
def decode_weather_code (code : Nat) : String × String :=
  (([(0, ("Cerah", "none")), (1, ("Cerah Sebagian", "none")),
     (2, ("Berawan Sebagian", "none")), (3, ("Mendung", "none")),
     (45, ("Kabut", "none")), (48, ("Kabut Tebal", "none")),
     (51, ("Gerimis Ringan", "light")), (53, ("Gerimis Sedang", "light")),
     (55, ("Gerimis Lebat", "moderate")), (61, ("Hujan Ringan", "light")),
     (63, ("Hujan Sedang", "moderate")), (65, ("Hujan Lebat", "heavy")),
     (66, ("Hujan Es Ringan", "moderate")), (67, ("Hujan Es Lebat", "heavy")),
     (71, ("Salju Ringan", "light")), (73, ("Salju Sedang", "moderate")),
     (75, ("Salju Lebat", "heavy")), (80, ("Hujan Singkat", "light")),
     (81, ("Hujan Singkat Sedang", "moderate")), (82, ("Hujan Singkat Lebat", "heavy")),
     (95, ("Petir", "extreme")), (96, ("Petir + Es", "extreme")),
     (99, ("Petir + Es Lebat", "extreme"))] : List (Nat × (String × String))).lookup
    code).getD ("Unknown", "none")

/-- `WeatherAPI.get_weather`: `none` models every caught failure path —
unknown location, connection error, timeout, and non-200 status. -/
def get_weather (net : String → NetOutcome) (current_hour now_ts : Nat)
    (location : String) : Option WeatherData :=
  if location ∉ LOCATIONS then none
  else
    match net location with
    | .connError => none
    | .timeout => none
    | .response status payload =>
      if status ≠ 200 then none
      else
        let precipitation :=
          ((payload.hourly.find? (fun p => p.1 = current_hour)).map Prod.snd).getD 0
        let info := decode_weather_code payload.weathercode
        some {
          location := location,
          temperature := payload.temperature,
          precipitation := precipitation,
          windspeed := payload.windspeed,
          weather_code := payload.weathercode,
          weather_desc := info.1,
          rain_category := info.2,
          timestamp := now_ts }

/-- `WeatherAPI.get_all_weather` (and the fetch part of `fetch_and_save`):
collect the successful per-location fetches. -/
def get_all_weather (net : String → NetOutcome) (current_hour now_ts : Nat) :
    List WeatherData :=
  LOCATIONS.filterMap (get_weather net current_hour now_ts)

/-- Oracle for the random draws of the real-time engine: `uniform loc a b`
is the value of `random.uniform(a, b)` while simulating location `loc`. -/
structure SimRng where
  uniform : String → ℚ → ℚ → ℚ

/-- `TrafficEngine.simulate_location`: one fresh reading for `location`,
defaulting `rain_factor` to 1.0 when `weather_data` is absent. -/
def simulate_location (rng : SimRng) (hour now_ts : Nat) (location : String)
    (weather_data : Option WeatherData) : TrafficRow :=
  let base_vehicles := vehiclePatternGet hour
  let location_variance := rng.uniform location (4/5) (6/5)
  let vehicles0 := pyInt ((base_vehicles : ℚ) * location_variance)
  let rain_factor : ℚ :=
    match weather_data with
    | some w => rainImpactGet w.rain_category
    | none => 1
  let vehicles :=
    match weather_data with
    | some _ => pyInt ((vehicles0 : ℚ) * rain_factor)
    | none => vehicles0
  { timestamp := now_ts,
    location := location,
    vehicle_count := vehicles,
    condition := get_traffic_condition vehicles,
    speed_kmh := calculate_speed vehicles rain_factor (rng.uniform location (-3) 3),
    hour := hour,
    is_peak := if is_peak_hour hour then 1 else 0,
    rain_factor := rain_factor,
    data_source := "real_time_simulated" }

/-- `TrafficEngine.run_simulation_cycle`: fetch weather for all locations,
build the location → weather map, and simulate every configured location. -/
def run_simulation_cycle (net : String → NetOutcome) (rng : SimRng)
    (hour now_ts : Nat) : List TrafficRow :=
  let weather_list := get_all_weather net hour now_ts
  let weather_map := fun loc => weather_list.find? (fun w => w.location = loc)
  LOCATIONS.map (fun location =>
    simulate_location rng hour now_ts location (weather_map location))

/-- A fetch outcome on which `get_weather` gives up: network failure,
timeout, or a non-200 status. -/
def netFailed (o : NetOutcome) : Prop :=
  o = .connError ∨ o = .timeout ∨ ∃ s p, o = .response s p ∧ s ≠ 200

/-! ### Spec-side formulas for the prediction claim -/

/-- The rows matching both the requested location and target hour. -/
def predictSlice (rows : List TrafficRow) (loc : String) (hr : Nat) : List TrafficRow :=
  rows.filter (fun r => r.location = loc ∧ r.hour = hr)

/-- Mean vehicle count over the matching slice. -/
def sliceMean (rows : List TrafficRow) (loc : String) (hr : Nat) : ℚ :=
  qmean ((predictSlice rows loc hr).map (fun r => (r.vehicle_count : ℚ)))

/-- Sample standard deviation (ddof = 1) of the vehicle counts over the
matching slice. -/
noncomputable def sliceStd (rows : List TrafficRow) (loc : String) (hr : Nat) : ℝ :=
  Real.sqrt
    (((((predictSlice rows loc hr).map
        (fun r => ((r.vehicle_count : ℚ) - sliceMean rows loc hr) ^ 2)).sum /
          (((predictSlice rows loc hr).length : ℚ) - 1)) : ℚ) : ℝ)

end JakartaTraffic

namespace JakartaTraffic

/-! ### Theorems -/

/-- C1: for every integer vehicle count v ≥ 0 the classifier (both the
engine copy and the generator copy, which agree) returns exactly one of the
five labels, the bands [0,100), [100,200), [200,350), [350,500) are
half-open, contiguous and non-overlapping, and every v ≥ 500 — in
particular every v ≥ 9999, beyond the last band bound — gets the fallback
label "Macet". -/
theorem C1_condition_classifier (v : Int) (hv : 0 ≤ v) :
    get_traffic_condition v ∈ ["Lancar", "Sedang", "Padat", "Sangat Padat", "Macet"]
    ∧ get_condition v = get_traffic_condition v
    ∧ (get_traffic_condition v = "Lancar" ↔ v < 100)
    ∧ (get_traffic_condition v = "Sedang" ↔ 100 ≤ v ∧ v < 200)
    ∧ (get_traffic_condition v = "Padat" ↔ 200 ≤ v ∧ v < 350)
    ∧ (get_traffic_condition v = "Sangat Padat" ↔ 350 ≤ v ∧ v < 500)
    ∧ (get_traffic_condition v = "Macet" ↔ 500 ≤ v)
    ∧ (9999 ≤ v → get_traffic_condition v = "Macet") := by
  simp only [get_traffic_condition, get_condition, TRAFFIC_THRESHOLDS, condLookup,
    List.mem_cons, List.not_mem_nil]
  split_ifs <;> simp_all <;> omega

/-- Concrete check of C1 at v = 150. -/
theorem C1_condition_classifier_witness :
    (0 : Int) ≤ 150 ∧ get_traffic_condition 150 = "Sedang" :=
  ⟨by decide, ((C1_condition_classifier 150 (by decide)).2.2.2.1).mpr (by decide)⟩

/-- Helper: `round1` stays within a closed interval with endpoints exactly
representable at one decimal. -/
theorem round1_mem_Icc {x : ℚ} (h5 : 5 ≤ x) (h60 : x ≤ 60) :
    5 ≤ round1 x ∧ round1 x ≤ 60 := by
  have h1 : (50 : ℤ) ≤ round (10 * x) := by
    rw [round_eq, Int.le_floor]
    push_cast
    linarith
  have h2 : round (10 * x) ≤ (600 : ℤ) := by
    rw [round_eq]
    have hx : (10 * x + 1 / 2 : ℚ) ≤ 600 + 1 / 2 := by linarith
    have hle := Int.floor_le_floor hx
    have h600 : ⌊(600 + 1 / 2 : ℚ)⌋ = 600 := by norm_num
    omega
  have c1 : ((50 : ℤ) : ℚ) ≤ ((round (10 * x) : ℤ) : ℚ) := by exact_mod_cast h1
  have c2 : ((round (10 * x) : ℤ) : ℚ) ≤ ((600 : ℤ) : ℚ) := by exact_mod_cast h2
  constructor
  · rw [round1]
    push_cast at c1 ⊢
    linarith
  · rw [round1]
    push_cast at c2 ⊢
    linarith

/-- C2: for every integer vehicle count v ≥ 0, rain factor r ≥ 1 and
perturbation u ∈ [-3,3] drawn by `random.uniform(-3, 3)`,
`calculate_speed` is precisely the clamp of ((60 - v/10)/r) + u to
[5, 60] rounded to one decimal, and the result lies in [5, 60]. -/
theorem C2_calculate_speed (v : Int) (r u : ℚ)
    (hv : 0 ≤ v) (hr : 1 ≤ r) (hu1 : -3 ≤ u) (hu2 : u ≤ 3) :
    calculate_speed v r u = round1 (max 5 (min 60 ((60 - (v : ℚ) / 10) / r + u)))
    ∧ 5 ≤ calculate_speed v r u ∧ calculate_speed v r u ≤ 60 := by
  refine ⟨rfl, ?_⟩
  have h5 : (5 : ℚ) ≤ max 5 (min 60 ((60 - (v : ℚ) / 10) / r + u)) := le_max_left _ _
  have h60 : max 5 (min 60 ((60 - (v : ℚ) / 10) / r + u)) ≤ 60 := by
    apply max_le (by norm_num)
    exact min_le_left _ _
  exact round1_mem_Icc h5 h60

/-- Concrete check of C2 at v = 100, r = 1, u = 0 (speed 50). -/
theorem C2_calculate_speed_witness :
    (0 : Int) ≤ 100 ∧ (1 : ℚ) ≤ 1 ∧ (-3 : ℚ) ≤ 0 ∧ (0 : ℚ) ≤ 3
    ∧ 5 ≤ calculate_speed 100 1 0 ∧ calculate_speed 100 1 0 ≤ 60 :=
  ⟨by norm_num, by norm_num, by norm_num, by norm_num,
   (C2_calculate_speed 100 1 0 (by norm_num) (by norm_num) (by norm_num) (by norm_num)).2⟩

/-- C9: for every hour h in [0,23], the engine peak predicate is true
exactly on {6,7,8,16,17,18}, and the engine half-open check agrees with
the generator inline closed check. -/
theorem C9_peak_hours : ∀ h : Nat, h < 24 →
    (is_peak_hour h = true ↔ h ∈ [6, 7, 8, 16, 17, 18]) ∧ is_peak_hour h = genIsPeak h := by
  decide

/-- Concrete check of C9 at h = 7 and h = 20. -/
theorem C9_peak_hours_witness :
    is_peak_hour 7 = true ∧ is_peak_hour 20 = genIsPeak 20 :=
  ⟨(C9_peak_hours 7 (by decide)).1.mpr (by decide), (C9_peak_hours 20 (by decide)).2⟩

/-- C8: the correlation interpretation returns the strong-positive string
iff c ≥ 0.7, the moderate string iff 0.4 ≤ c < 0.7, the weak string iff
0.2 ≤ c < 0.4, and for every c < 0.2 — including arbitrarily strong
negative correlations — the very-weak string. -/
theorem C8_interpret_correlation (c : ℝ) :
    (interpret_correlation c =
        "Korelasi Kuat Positif: Hujan sangat mempengaruhi kemacetan" ↔ 0.7 ≤ c)
    ∧ (interpret_correlation c =
        "Korelasi Sedang Positif: Hujan cukup mempengaruhi kemacetan" ↔ 0.4 ≤ c ∧ c < 0.7)
    ∧ (interpret_correlation c =
        "Korelasi Lemah Positif: Hujan sedikit mempengaruhi kemacetan" ↔ 0.2 ≤ c ∧ c < 0.4)
    ∧ (c < 0.2 →
        interpret_correlation c = "Korelasi Sangat Lemah: Hujan tidak terlalu mempengaruhi") := by
  unfold interpret_correlation
  split_ifs with h1 h2 h3 <;>
    simp only [ge_iff_le, not_le] at * <;>
    refine ⟨?_, ?_, ?_, ?_⟩ <;>
    first
      | exact iff_of_true trivial (by linarith)
      | exact iff_of_true trivial ⟨by linarith, by linarith⟩
      | exact iff_of_false (by decide) (by intro hc; linarith)
      | exact iff_of_false (by decide) (by rintro ⟨ha, hb⟩; linarith)
      | exact fun hc => trivial
      | exact fun hc => absurd hc (not_lt.mpr (by linarith))

/-- Concrete check of C8 at c = -0.9: a strong negative correlation is
reported as very weak. -/
theorem C8_interpret_correlation_witness :
    interpret_correlation (-0.9) = "Korelasi Sangat Lemah: Hujan tidak terlalu mempengaruhi" :=
  (C8_interpret_correlation (-0.9)).2.2.2 (by norm_num)

/-- Helper: when the whole day lies before `now`, the inner while-loop
visits exactly the 5-minute slots of the day. Stated for a generic suffix
of the loop to make the induction go through. -/
theorem slotLoop_eq (now dayStart : Nat) (h : dayStart + 86400 ≤ now) :
    ∀ n : Nat, n ≤ 288 →
      slotLoop now dayStart (dayStart + 300 * (288 - n)) =
        (List.range n).map (fun j => dayStart + 300 * (288 - n + j)) := by
  intro n
  induction n with
  | zero =>
    intro _
    rw [slotLoop.eq_def, dif_neg (by omega)]
    simp
  | succ m ih =>
    intro hm
    rw [slotLoop.eq_def, dif_pos (by omega)]
    have harg : dayStart + 300 * (288 - (m + 1)) + intervalSec = dayStart + 300 * (288 - m) := by
      have hi : intervalSec = 300 := rfl
      omega
    rw [harg, ih (by omega), List.range_succ_eq_map]
    simp only [List.map_cons, List.map_map]
    congr 1
    all_goals
      first
        | omega
        | (refine List.map_congr_left fun j hj => ?_
           simp only [Function.comp_apply]
           omega)

/-- Helper: the slot list of a fully covered day, from midnight. -/
theorem slotLoop_start (now dayStart : Nat) (h : dayStart + 86400 ≤ now) :
    slotLoop now dayStart dayStart = (List.range 288).map (fun j => dayStart + 300 * j) := by
  have h288 := slotLoop_eq now dayStart h 288 le_rfl
  simpa using h288

/-- C3: a backfill over 1 historical day at the 5-minute interval with 2
locations emits exactly 576 traffic records (288 slots × 2 locations) and
exactly 48 weather records (24 on-the-hour slots × 2 locations), for
every random oracle, epoch weekday and current time. -/
theorem C3_backfill_counts (rng : Rng) (w0 : Nat) (locs : List String) (now : Nat)
    (hlocs : locs.length = 2) (hnow : 86400 ≤ now) :
    (generate_historical_data rng w0 locs 1 now).1.length = 576
    ∧ (generate_historical_data rng w0 locs 1 now).2.length = 48 := by
  have hds : 86400 * ((now - 86400) / 86400) + 86400 ≤ now := by omega
  unfold generate_historical_data
  rw [show (86400 * 1 : Nat) = 86400 from by norm_num]
  dsimp only
  constructor
  · rw [dayLoopTraffic.eq_def, dif_pos (show now - 86400 < now by omega)]
    rw [show now - 86400 + 86400 = now from by omega]
    rw [dayLoopTraffic.eq_def, dif_neg (lt_irrefl now)]
    unfold processDay
    dsimp only
    rw [slotLoop_start now _ hds]
    simp only [List.append_nil, List.length_flatMap, List.map_map, Function.comp_def,
      List.length_map, hlocs]
    decide
  · rw [dayLoopWeather.eq_def, dif_pos (show now - 86400 < now by omega)]
    rw [show now - 86400 + 86400 = now from by omega]
    rw [dayLoopWeather.eq_def, dif_neg (lt_irrefl now)]
    unfold processDay
    dsimp only
    rw [slotLoop_start now _ hds]
    simp only [List.append_nil, List.length_flatMap, List.map_map, Function.comp_def,
      apply_ite List.length, List.length_map, List.length_nil, hlocs]
    have hcong : ∀ j ∈ List.range 288,
        (if (86400 * ((now - 86400) / 86400) + 300 * j) % 3600 / 60 = 0 then 2 else 0) =
          (if j % 12 = 0 then (2 : ℕ) else 0) := by
      intro j hj
      have hj24 : j < 288 := List.mem_range.mp hj
      have hiff : (86400 * ((now - 86400) / 86400) + 300 * j) % 3600 / 60 = 0 ↔ j % 12 = 0 := by
        omega
      simp [hiff]
    rw [List.map_congr_left hcong]
    decide

/-- Concrete check of C3 with a constant-zero oracle at now = one day. -/
theorem C3_backfill_counts_witness :
    (["Jakarta Pusat", "Jakarta Selatan"] : List String).length = 2 ∧ 86400 ≤ 86400
    ∧ (generate_historical_data ⟨fun _ _ _ _ => 0, fun _ _ _ => 0, fun _ _ _ _ => 0⟩ 3
        ["Jakarta Pusat", "Jakarta Selatan"] 1 86400).1.length = 576
    ∧ (generate_historical_data ⟨fun _ _ _ _ => 0, fun _ _ _ => 0, fun _ _ _ _ => 0⟩ 3
        ["Jakarta Pusat", "Jakarta Selatan"] 1 86400).2.length = 48 :=
  ⟨rfl, le_rfl,
   (C3_backfill_counts ⟨fun _ _ _ _ => 0, fun _ _ _ => 0, fun _ _ _ _ => 0⟩ 3
     ["Jakarta Pusat", "Jakarta Selatan"] 86400 rfl le_rfl).1,
   (C3_backfill_counts ⟨fun _ _ _ _ => 0, fun _ _ _ => 0, fun _ _ _ _ => 0⟩ 3
     ["Jakarta Pusat", "Jakarta Selatan"] 86400 rfl le_rfl).2⟩

/-- C6: on an empty persisted dataset every analytics operation returns
its defined empty indicator — an error dict for the dict-shaped results,
an empty frame for the frame-shaped ones — and none of them raises (the
one operation that can raise, `predict_traffic`, returns normally). -/
theorem C6_empty_dataset (location : String) (target_hour top_n : Nat) :
    get_overall_stats [] = .errDict "Tidak ada data"
    ∧ get_hourly_pattern [] = []
    ∧ get_rain_correlation [] = .errDict "Tidak ada data"
    ∧ get_location_comparison [] = []
    ∧ predict_traffic [] location target_hour = .ok (.errDict "Tidak ada data historis")
    ∧ get_weekday_vs_weekend [] = .errDict "Tidak ada data"
    ∧ get_top_congestion [] top_n = []
    ∧ get_current_status [] = [] :=
  ⟨rfl, rfl, rfl, rfl, rfl, rfl, rfl, rfl⟩

/-- C10: the hourly pattern has a row for hour h iff some reading has
hour h; hours with no readings are omitted rather than zero-filled. -/
theorem C10_hourly_pattern_hours (rows : List TrafficRow) (hne : rows ≠ []) (h : Nat) :
    (∃ hr ∈ get_hourly_pattern rows, hr.hour = h) ↔ ∃ r ∈ rows, r.hour = h := by
  unfold get_hourly_pattern
  rw [if_neg hne]
  constructor
  · rintro ⟨hr, hmem, hh⟩
    rw [List.mem_map] at hmem
    obtain ⟨h0, h0mem, rfl⟩ := hmem
    rw [List.mem_insertionSort, List.mem_dedup, List.mem_map] at h0mem
    obtain ⟨r, hrmem, hr0⟩ := h0mem
    exact ⟨r, hrmem, by rw [hr0]; exact hh⟩
  · rintro ⟨r, hrmem, hh⟩
    have hmem : h ∈ ((rows.map (fun r => r.hour)).dedup).insertionSort (· ≤ ·) := by
      rw [List.mem_insertionSort, List.mem_dedup, List.mem_map]
      exact ⟨r, hrmem, hh⟩
    refine ⟨_, List.mem_map_of_mem _ hmem, rfl⟩

/-- Concrete check of C10 on a one-row dataset observed at hour 7. -/
theorem C10_hourly_pattern_hours_witness :
    (∃ hr ∈ get_hourly_pattern [⟨0, "Jakarta Pusat", 100, "Sedang", 30, 7, 1, 1,
        "historical_generated"⟩], hr.hour = 7)
    ∧ ¬ ∃ hr ∈ get_hourly_pattern [⟨0, "Jakarta Pusat", 100, "Sedang", 30, 7, 1, 1,
        "historical_generated"⟩], hr.hour = 9 := by
  constructor
  · exact (C10_hourly_pattern_hours _ (by simp) 7).mpr
      ⟨⟨0, "Jakarta Pusat", 100, "Sedang", 30, 7, 1, 1, "historical_generated"⟩,
        by simp, rfl⟩
  · intro hcon
    obtain ⟨r, hrmem, hh⟩ := (C10_hourly_pattern_hours _ (by simp) 9).mp hcon
    rw [List.mem_singleton] at hrmem
    rw [hrmem] at hh
    exact absurd hh (by decide)

/-- C5 counterexample: at the point prediction p = 9999, just past the
last declared band bound, the inline scan in `predict_traffic` keeps its
initial label "Lancar" while the shared classifier falls back to "Macet",
so the two classifiers do not agree on all p ≥ 0. -/
theorem C5_predict_condition_counterexample :
    (0 : Int) ≤ 9999
    ∧ predictCondition 9999 = "Lancar"
    ∧ get_traffic_condition 9999 = "Macet"
    ∧ predictCondition 9999 ≠ get_traffic_condition 9999 := by
  refine ⟨by decide, rfl, rfl, ?_⟩
  decide

/-- C5 amended: the label `predict_traffic` assigns to a point prediction
p agrees with the shared classifier `get_traffic_condition` for every
0 ≤ p < 9999, i.e. on every value inside the declared bands; beyond 9999
the inline scan returns its initial "Lancar" whereas the shared
classifier returns the "Macet" fallback. -/
theorem C5_predict_condition_amended (p : Int) (h0 : 0 ≤ p) (h1 : p < 9999) :
    predictCondition p = get_traffic_condition p := by
  simp only [predictCondition, get_traffic_condition, TRAFFIC_THRESHOLDS,
    predictCondScan, condLookup]
  split_ifs <;> first | rfl | (exfalso; omega)

/-- Concrete check of the amended C5 at p = 400. -/
theorem C5_predict_condition_amended_witness :
    (0 : Int) ≤ 400 ∧ (400 : Int) < 9999
    ∧ predictCondition 400 = get_traffic_condition 400 :=
  ⟨by decide, by decide, C5_predict_condition_amended 400 (by decide) (by decide)⟩

/-- Helper: the two successive filters of `predict_traffic` compute the
single both-conditions slice. -/
theorem slice_eq_filter_filter (rows : List TrafficRow) (loc : String) (hr : Nat) :
    ((rows.filter (fun r => r.location = loc)).filter (fun r => r.hour = hr)) =
      predictSlice rows loc hr := by
  rw [predictSlice, List.filter_filter]
  apply List.filter_congr
  intro r _
  simp [Bool.and_comm]

/-- C4 counterexample: on a dataset whose matching slice has exactly one
row, `pandas.Series.std()` is NaN and `int(avg - std)` raises ValueError,
so `predict_traffic` does not return a result for every non-empty slice. -/
theorem C4_predict_traffic_counterexample :
    predictSlice [⟨0, "Jakarta Pusat", 100, "Sedang", 30, 7, 1, 1, "historical_generated"⟩]
        "Jakarta Pusat" 7 ≠ []
    ∧ predict_traffic [⟨0, "Jakarta Pusat", 100, "Sedang", 30, 7, 1, 1,
          "historical_generated"⟩] "Jakarta Pusat" 7 =
        .error "ValueError: cannot convert float NaN to integer" := by
  exact ⟨by decide, rfl⟩

/-- C4 amended: `predict_traffic` returns the no-historical-data error
dict exactly when zero persisted rows match both location and target
hour; every matching slice with at least two rows yields, without
raising, a result whose predicted range is [max(0, int(mean - std)),
int(mean + std)] with point prediction int(mean) and the slice size as
samples_used. (A single-row slice instead raises on int(NaN).) -/
theorem C4_predict_traffic_amended (rows : List TrafficRow) (loc : String) (hr : Nat) :
    ((∃ msg, predict_traffic rows loc hr = Except.ok (PyResult.errDict msg)) ↔
        predictSlice rows loc hr = [])
    ∧ (2 ≤ (predictSlice rows loc hr).length →
        ∃ p : Prediction,
          predict_traffic rows loc hr = Except.ok (PyResult.ok p)
          ∧ p.predicted_vehicles_min =
              max 0 (pyIntR ((sliceMean rows loc hr : ℝ) - sliceStd rows loc hr))
          ∧ p.predicted_vehicles_avg = pyInt (sliceMean rows loc hr)
          ∧ p.predicted_vehicles_max =
              pyIntR ((sliceMean rows loc hr : ℝ) + sliceStd rows loc hr)
          ∧ p.samples_used = (predictSlice rows loc hr).length) := by
  have key := slice_eq_filter_filter rows loc hr
  unfold predict_traffic
  dsimp only
  by_cases hdf : rows.filter (fun r => r.location = loc) = []
  · rw [if_pos hdf]
    have hs : predictSlice rows loc hr = [] := by
      rw [← key, hdf]
      rfl
    refine ⟨iff_of_true ⟨"Tidak ada data historis", rfl⟩ hs, ?_⟩
    intro h2
    rw [hs] at h2
    simp at h2
  · rw [if_neg hdf]
    by_cases hdfh : (rows.filter (fun r => r.location = loc)).filter
        (fun r => r.hour = hr) = []
    · rw [if_pos hdfh]
      have hs : predictSlice rows loc hr = [] := key ▸ hdfh
      refine ⟨iff_of_true ⟨_, rfl⟩ hs, ?_⟩
      intro h2
      rw [hs] at h2
      simp at h2
    · rw [if_neg hdfh]
      have hsne : predictSlice rows loc hr ≠ [] := key ▸ hdfh
      constructor
      · apply iff_of_false
        · by_cases hlen : (((rows.filter (fun r => r.location = loc)).filter
              (fun r => r.hour = hr)).map (fun r => (r.vehicle_count : ℚ))).length ≤ 1
          · unfold sampleStd
            rw [if_pos hlen]
            simp
          · unfold sampleStd
            rw [if_neg hlen]
            simp
        · exact hsne
      · intro h2
        have hlen : ¬ (((rows.filter (fun r => r.location = loc)).filter
            (fun r => r.hour = hr)).map (fun r => (r.vehicle_count : ℚ))).length ≤ 1 := by
          rw [List.length_map, key]
          omega
        unfold sampleStd
        rw [if_neg hlen]
        refine ⟨_, rfl, ?_, ?_, ?_, ?_⟩ <;>
          simp only [key, sliceMean, sliceStd, List.map_map, List.length_map,
            Function.comp_def]

/-- Concrete check of the amended C4 on a two-row slice with equal counts
(mean 100, std 0): the prediction returns range [100, 100], point 100 and
2 samples. -/
theorem C4_predict_traffic_amended_witness :
    2 ≤ (predictSlice [⟨0, "Jakarta Pusat", 100, "Sedang", 30, 7, 1, 1,
          "historical_generated"⟩,
        ⟨60, "Jakarta Pusat", 100, "Sedang", 30, 7, 1, 1, "historical_generated"⟩]
        "Jakarta Pusat" 7).length
    ∧ ∃ p : Prediction,
        predict_traffic [⟨0, "Jakarta Pusat", 100, "Sedang", 30, 7, 1, 1,
            "historical_generated"⟩,
          ⟨60, "Jakarta Pusat", 100, "Sedang", 30, 7, 1, 1, "historical_generated"⟩]
          "Jakarta Pusat" 7 = Except.ok (PyResult.ok p)
        ∧ p.predicted_vehicles_min = 100
        ∧ p.predicted_vehicles_avg = 100
        ∧ p.predicted_vehicles_max = 100
        ∧ p.samples_used = 2 := by
  have h2 : 2 ≤ (predictSlice [⟨0, "Jakarta Pusat", 100, "Sedang", 30, 7, 1, 1,
        "historical_generated"⟩,
      ⟨60, "Jakarta Pusat", 100, "Sedang", 30, 7, 1, 1, "historical_generated"⟩]
      "Jakarta Pusat" 7).length := by decide
  obtain ⟨p, hp, hmin, havg, hmax, hsam⟩ :=
    (C4_predict_traffic_amended [⟨0, "Jakarta Pusat", 100, "Sedang", 30, 7, 1, 1,
        "historical_generated"⟩,
      ⟨60, "Jakarta Pusat", 100, "Sedang", 30, 7, 1, 1, "historical_generated"⟩]
      "Jakarta Pusat" 7).2 h2
  have hslice : predictSlice [⟨0, "Jakarta Pusat", 100, "Sedang", 30, 7, 1, 1,
        "historical_generated"⟩,
      ⟨60, "Jakarta Pusat", 100, "Sedang", 30, 7, 1, 1, "historical_generated"⟩]
      "Jakarta Pusat" 7 =
      [⟨0, "Jakarta Pusat", 100, "Sedang", 30, 7, 1, 1, "historical_generated"⟩,
        ⟨60, "Jakarta Pusat", 100, "Sedang", 30, 7, 1, 1, "historical_generated"⟩] := by
    decide
  have hmean : sliceMean [⟨0, "Jakarta Pusat", 100, "Sedang", 30, 7, 1, 1,
        "historical_generated"⟩,
      ⟨60, "Jakarta Pusat", 100, "Sedang", 30, 7, 1, 1, "historical_generated"⟩]
      "Jakarta Pusat" 7 = 100 := by
    unfold sliceMean
    rw [hslice]
    norm_num [qmean]
  have hstd : sliceStd [⟨0, "Jakarta Pusat", 100, "Sedang", 30, 7, 1, 1,
        "historical_generated"⟩,
      ⟨60, "Jakarta Pusat", 100, "Sedang", 30, 7, 1, 1, "historical_generated"⟩]
      "Jakarta Pusat" 7 = 0 := by
    unfold sliceStd
    simp only [hslice, hmean]
    norm_num
  refine ⟨h2, p, hp, ?_, ?_, ?_, ?_⟩
  · rw [hmin, hmean, hstd]
    unfold pyIntR
    rw [if_pos (by norm_num)]
    norm_num
  · rw [havg, hmean]
    unfold pyInt
    rw [if_pos (by norm_num)]
    norm_num
  · rw [hmax, hmean, hstd]
    unfold pyIntR
    rw [if_pos (by norm_num)]
    norm_num
  · rw [hsam, hslice]
    rfl

/-- Helper: a successful `get_weather` result carries the requested
location name. -/
theorem get_weather_location (net : String → NetOutcome) (current_hour now_ts : Nat)
    (location : String) (w : WeatherData)
    (hw : get_weather net current_hour now_ts location = some w) :
    w.location = location := by
  unfold get_weather at hw
  split at hw
  · exact absurd hw (by simp)
  · split at hw
    · exact absurd hw (by simp)
    · exact absurd hw (by simp)
    · split at hw
      · exact absurd hw (by simp)
      · rw [Option.some_inj] at hw
        rw [← hw]

/-- C7: when the weather fetch fails for a location — connection error,
timeout, non-200 status, or an unknown location — no exception escapes:
`get_weather` returns the unavailable signal `none`, the simulation cycle
still emits exactly one reading per configured location (in configuration
order over the duplicate-free location list), and every location whose
weather is unavailable gets `rain_factor` = 1.0. -/
theorem C7_weather_unavailable (net : String → NetOutcome) (rng : SimRng)
    (hour now_ts : Nat) :
    (∀ location, netFailed (net location) ∨ location ∉ LOCATIONS →
        get_weather net hour now_ts location = none)
    ∧ LOCATIONS.Nodup
    ∧ (run_simulation_cycle net rng hour now_ts).map (fun r => r.location) = LOCATIONS
    ∧ (∀ location, get_weather net hour now_ts location = none →
        ∀ r ∈ run_simulation_cycle net rng hour now_ts,
          r.location = location → r.rain_factor = 1) := by
  refine ⟨?_, by decide, ?_, ?_⟩
  · intro location hfail
    rcases hfail with (h1 | h1 | ⟨s, pl, h1, hs⟩) | hnot
    · simp [get_weather, h1]
    · simp [get_weather, h1]
    · simp [get_weather, h1, hs]
    · simp [get_weather, hnot]
  · unfold run_simulation_cycle
    dsimp only
    rw [List.map_map]
    conv_rhs => rw [← List.map_id LOCATIONS]
    apply List.map_congr_left
    intro location _
    rfl
  · intro location hnone r hr hloc
    unfold run_simulation_cycle at hr
    dsimp only at hr
    rw [List.mem_map] at hr
    obtain ⟨loc0, hloc0mem, rfl⟩ := hr
    have hl : loc0 = location := hloc
    subst hl
    have hfind : (get_all_weather net hour now_ts).find?
        (fun w => w.location = loc0) = none := by
      rw [List.find?_eq_none]
      intro w hw
      unfold get_all_weather at hw
      rw [List.mem_filterMap] at hw
      obtain ⟨l2, _, hw2⟩ := hw
      have hwl : w.location = l2 := get_weather_location net hour now_ts l2 w hw2
      simp only [hwl]
      intro hcon
      rw [of_decide_eq_true hcon] at hw2
      rw [hnone] at hw2
      exact Option.noConfusion hw2
    rw [hfind]
    rfl

/-- Concrete check of C7 with every fetch timing out: the Jakarta Pusat
fetch is unavailable, the cycle still covers all five locations, and its
first reading falls back to rain factor 1. -/
theorem C7_weather_unavailable_witness :
    get_weather (fun _ => NetOutcome.timeout) 8 0 "Jakarta Pusat" = none
    ∧ (run_simulation_cycle (fun _ => NetOutcome.timeout) ⟨fun _ _ _ => 0⟩ 8 0).map
        (fun r => r.location) = LOCATIONS := by
  have hmain := C7_weather_unavailable (fun _ => NetOutcome.timeout) ⟨fun _ _ _ => 0⟩ 8 0
  exact ⟨hmain.1 "Jakarta Pusat" (Or.inl (Or.inr (Or.inl rfl))), hmain.2.2.1⟩

end JakartaTraffic
